import Mathlib

/-!
Verification development for the `delegate` library
(`include/delegate/delegate.hpp`): a fixed-size, non-owning callable
reference consisting of a trampoline (adapter) function pointer `m_cb`
and a one-word payload `m_ptr` (a union of `void*` and a raw function
pointer, sharing storage).

Shallow embedding conventions:
* addresses (of objects and of functions) are modelled as `Nat`; the null
  pointer is address `0`;
* the identity of a trampoline instantiation is modelled by the inductive
  type `TrampolineId`: distinct C++ functions (distinct template
  instantiations) have distinct addresses, so trampoline-pointer equality
  is `TrampolineId` equality.  The per-run placement of the trampolines in
  memory — which raw pointer comparison `m_cb < m_cb` observes — is an
  injective map `addr : TrampolineId → Nat` supplied per program run;
* the `DataPtr` union stores one machine word; both members `v_ptr` and
  `fkn_ptr` read back that same stored word (pointer values are their
  addresses, so reinterpreting the word is the identity here);
* invocation is given a denotational semantics: an environment `Env`
  interprets function identities, member-function identities, functor
  types and the heap, exactly one interpretation field per adapter shape
  in the source.
-/

/-- Identity of one trampoline (adapter) instantiation of
`delegate<R(Args...)>`.  One constructor per adapter in the source:
`doNullFkn`, `doFreeCB<fkn>`, `doMemberCB<T,memFkn>`,
`doConstMemberCB<T,memFkn>`, `doFunctor<F>`, `doConstFunctor<F>`,
`doRuntimeFkn`, `dofreeFknWithObjectRef<T,fkn>`,
`dofreeFknWithObjectConstRef<T,fkn>`.  Template parameters (the bound
function, member function, object/functor type) are identified by `Nat`
codes. -/
inductive TrampolineId : Type where
  | nullFkn : TrampolineId
  | freeCB (f : Nat) : TrampolineId
  | memberCB (t m : Nat) : TrampolineId
  | constMemberCB (t m : Nat) : TrampolineId
  | functorCB (t : Nat) : TrampolineId
  | constFunctorCB (t : Nat) : TrampolineId
  | runtimeFkn : TrampolineId
  | freeFknWithObjectRef (t f : Nat) : TrampolineId
  | freeFknWithObjectConstRef (t f : Nat) : TrampolineId
deriving DecidableEq, Repr

/-- The `DataPtr` union: one machine word of storage.  `v_ptr` and
`fkn_ptr` are the two members; both read the same stored word (a pointer
value is its address in this model). -/
structure DataPtr : Type where
  word : Nat
deriving DecidableEq, Repr

/-- The `void* v_ptr` member of the union. -/
def DataPtr.v_ptr (p : DataPtr) : Nat := p.word

/-- The `TargetFreeCB fkn_ptr` member of the union (same storage). -/
def DataPtr.fkn_ptr (p : DataPtr) : Nat := p.word

/-- `delegate<R(Args...)>`: trampoline pointer plus one-word payload. -/
structure delegate : Type where
  m_cb : TrampolineId
  m_ptr : DataPtr
deriving DecidableEq, Repr

/-- `delegate(const std::nullptr_t& = nullptr)`: default construction,
`m_cb = &doNullFkn`, `m_ptr` default (`v_ptr = nullptr`). -/
def delegate.defaultCtor : delegate :=
  { m_cb := TrampolineId.nullFkn, m_ptr := { word := 0 } }

/-- `delegate::null`: `m_cb == doNullFkn`. -/
def delegate.null (d : delegate) : Bool :=
  decide (d.m_cb = TrampolineId.nullFkn)

/-- `delegate::operator bool`: `!null()`. -/
def delegate.toBool (d : delegate) : Bool :=
  !d.null

/-- `operator==(const delegate&, std::nullptr_t)`: `lhs.null()`. -/
def delegate.op_eq_nullptr (d : delegate) : Bool :=
  d.null

/-- `delegate::equal`: same trampoline pointer, and the payload compared
through the union member selected by whether the trampoline is
`doRuntimeFkn`. -/
def delegate.equal (lhs rhs : delegate) : Bool :=
  decide (lhs.m_cb = rhs.m_cb) &&
    (if lhs.m_cb = TrampolineId.runtimeFkn
      then decide (lhs.m_ptr.fkn_ptr = rhs.m_ptr.fkn_ptr)
      else decide (lhs.m_ptr.v_ptr = rhs.m_ptr.v_ptr))

/-- `delegate::less`, at a fixed program run `addr` (the placement of the
trampoline functions in memory, observed by the raw pointer comparison
`lhs.m_cb < rhs.m_cb`):
`(lhs.null() && !rhs.null()) || lhs.m_cb < rhs.m_cb || (lhs.m_cb == rhs.m_cb && payload <)`. -/
def delegate.less (addr : TrampolineId → Nat) (lhs rhs : delegate) : Bool :=
  (lhs.null && !rhs.null)
    || decide (addr lhs.m_cb < addr rhs.m_cb)
    || (decide (lhs.m_cb = rhs.m_cb) &&
        (if lhs.m_cb = TrampolineId.runtimeFkn
          then decide (lhs.m_ptr.fkn_ptr < rhs.m_ptr.fkn_ptr)
          else decide (lhs.m_ptr.v_ptr < rhs.m_ptr.v_ptr)))

/-- `delegate::clear`: `m_cb = doNullFkn; m_ptr.v_ptr = nullptr`. -/
def delegate.clear (_d : delegate) : delegate :=
  { m_cb := TrampolineId.nullFkn, m_ptr := { word := 0 } }

/-- `delegate& set<fkn>()` (compile-time free function): the guard
`fkn ? &doFreeCB<fkn> : &doNullFkn`, payload `nullptr`.  `f` is the
function pointer value of the template argument (`0` = null pointer). -/
def delegate.set_free (f : Nat) (_d : delegate) : delegate :=
  { m_cb := if f ≠ 0 then TrampolineId.freeCB f else TrampolineId.nullFkn,
    m_ptr := { word := 0 } }

/-- `delegate& set<T, memFkn>(T&)`: `m_cb = &doMemberCB<T,memFkn>`,
`m_ptr.v_ptr = &tr`.  `p` is the object's address. -/
def delegate.set_member (t m p : Nat) (_d : delegate) : delegate :=
  { m_cb := TrampolineId.memberCB t m, m_ptr := { word := p } }

/-- `delegate& set<T, memFkn const>(T const&)`: `m_cb = &doConstMemberCB<T,memFkn>`. -/
def delegate.set_constMember (t m p : Nat) (_d : delegate) : delegate :=
  { m_cb := TrampolineId.constMemberCB t m, m_ptr := { word := p } }

/-- `delegate& set<T>(T&)` (functor): `m_cb = &doFunctor<T>`, `m_ptr.v_ptr = &tr`. -/
def delegate.set_functor (t p : Nat) (_d : delegate) : delegate :=
  { m_cb := TrampolineId.functorCB t, m_ptr := { word := p } }

/-- `delegate& set<T>(T const&)` (const functor): `m_cb = &doConstFunctor<T>`. -/
def delegate.set_constFunctor (t p : Nat) (_d : delegate) : delegate :=
  { m_cb := TrampolineId.constFunctorCB t, m_ptr := { word := p } }

/-- `delegate& set(TargetFreeCB fkn)` (runtime function pointer):
`m_cb = &doRuntimeFkn; m_ptr.fkn_ptr = fkn` — no null check on `fkn`. -/
def delegate.set_fkn (fkn : Nat) (_d : delegate) : delegate :=
  { m_cb := TrampolineId.runtimeFkn, m_ptr := { word := fkn } }

/-- `static delegate make<fkn>()`: same guard as `set<fkn>()`. -/
def delegate.make_free (f : Nat) : delegate :=
  { m_cb := if f ≠ 0 then TrampolineId.freeCB f else TrampolineId.nullFkn,
    m_ptr := { word := 0 } }

/-- `static delegate make<T, memFkn>(T& o)`. -/
def delegate.make_member (t m p : Nat) : delegate :=
  { m_cb := TrampolineId.memberCB t m, m_ptr := { word := p } }

/-- `static delegate make<T, memFkn const>(T const& o)`. -/
def delegate.make_constMember (t m p : Nat) : delegate :=
  { m_cb := TrampolineId.constMemberCB t m, m_ptr := { word := p } }

/-- `static delegate make<T>(T& o)` (functor). -/
def delegate.make_functor (t p : Nat) : delegate :=
  { m_cb := TrampolineId.functorCB t, m_ptr := { word := p } }

/-- `static delegate make<T>(T const& o)` (const functor). -/
def delegate.make_constFunctor (t p : Nat) : delegate :=
  { m_cb := TrampolineId.constFunctorCB t, m_ptr := { word := p } }

/-- `static delegate make(TargetFreeCB fkn)` / `make_fkn`: runtime
function pointer, stored as the payload word, no null check. -/
def delegate.make_fkn (fkn : Nat) : delegate :=
  { m_cb := TrampolineId.runtimeFkn, m_ptr := { word := fkn } }

/-- `static delegate make<T, fkn>(T& o)` for `R (*fkn)(T&, Args...)`:
context-function binding, `m_cb = &dofreeFknWithObjectRef<T,fkn>`,
`m_ptr = &o`. -/
def delegate.make_ctxRef (t f p : Nat) : delegate :=
  { m_cb := TrampolineId.freeFknWithObjectRef t f, m_ptr := { word := p } }

/-- `static delegate make<T, fkn>(T& o)` for `R (*fkn)(T const&, Args...)`:
`m_cb = &dofreeFknWithObjectConstRef<T,fkn>`. -/
def delegate.make_ctxConstRef (t f p : Nat) : delegate :=
  { m_cb := TrampolineId.freeFknWithObjectConstRef t f, m_ptr := { word := p } }

/-- `MemFkn<delegate, cnst>`: a stored trampoline pointer, defaulting to
the null adapter; `cnst` is the phantom constness parameter of the C++
template. -/
structure MemFkn (cnst : Bool) : Type where
  trampoline : TrampolineId := TrampolineId.nullFkn
deriving DecidableEq, Repr

/-- `MemFkn::null`: `trampoline == Del::doNullFkn`. -/
def MemFkn.null {c : Bool} (f : MemFkn c) : Bool :=
  decide (f.trampoline = TrampolineId.nullFkn)

/-- `MemFkn::equal`: `lhs.trampoline == rhs.trampoline`. -/
def MemFkn.equal {c : Bool} (lhs rhs : MemFkn c) : Bool :=
  decide (lhs.trampoline = rhs.trampoline)

/-- `static MemFkn<delegate, true> memFkn<T, memFkn_ const>()`. -/
def delegate.memFknConst (t m : Nat) : MemFkn true :=
  { trampoline := TrampolineId.constMemberCB t m }

/-- `static MemFkn<delegate, false> memFkn<T, memFkn_>()`. -/
def delegate.memFknNonconst (t m : Nat) : MemFkn false :=
  { trampoline := TrampolineId.memberCB t m }

/-- `delegate& set(MemFkn<delegate,false> f, T& o)`:
`m_cb = f.trampoline; m_ptr = &o`. -/
def delegate.set_memFkn (f : MemFkn false) (p : Nat) (_d : delegate) : delegate :=
  { m_cb := f.trampoline, m_ptr := { word := p } }

/-- `delegate& set(MemFkn<delegate,true> f, T const& o)`. -/
def delegate.set_memFknConst (f : MemFkn true) (p : Nat) (_d : delegate) : delegate :=
  { m_cb := f.trampoline, m_ptr := { word := p } }

/-- `static delegate make(MemFkn<delegate,false> f, T& o)`. -/
def delegate.make_memFkn (f : MemFkn false) (p : Nat) : delegate :=
  { m_cb := f.trampoline, m_ptr := { word := p } }

/-- `static delegate make(MemFkn<delegate,true> f, T const& o)` (also the
`T&` overload, which forwards to the const one). -/
def delegate.make_memFknConst (f : MemFkn true) (p : Nat) : delegate :=
  { m_cb := f.trampoline, m_ptr := { word := p } }

/-- `details::nullReturnFunction<T>`: returns `T{}`; the `void`
specialization is the `R = Unit` case. -/
def nullReturnFunction (R : Type) [Inhabited R] : R := default

/-- Interpretation environment for one call signature `R(Args...)`
(argument tuple type `A`, return type `R`) and one object/functor type
`Obj`: one field per adapter shape, giving the meaning of the compile-time
template parameters and of the heap.
* `objAt p`: the object stored at address `p` (what `static_cast<T*>(v_ptr)`
  dereferences to);
* `freeFkn f`: the free function whose pointer value is `f`;
* `fknAt f`: the function a `TargetFreeCB` value `f` points at (what
  `doRuntimeFkn` calls);
* `member t m` / `constMember t m`: member function `m` of type `t`,
  applied to an object and the call arguments;
* `functorAt t` / `constFunctorAt t`: `operator()` of functor type `t`;
* `ctxFkn t f` / `ctxConstFkn t f`: free function `f` taking a `t&`
  (resp. `t const&`) as extra first argument. -/
structure Env (Obj R A : Type) : Type where
  objAt : Nat → Obj
  freeFkn : Nat → A → R
  fknAt : Nat → A → R
  member : Nat → Nat → Obj → A → R
  constMember : Nat → Nat → Obj → A → R
  functorAt : Nat → Obj → A → R
  constFunctorAt : Nat → Obj → A → R
  ctxFkn : Nat → Nat → Obj → A → R
  ctxConstFkn : Nat → Nat → Obj → A → R

/-- `delegate::operator()(Args...)`: `m_cb(m_ptr, args...)`.  Each branch
is the body of the corresponding adapter in the source:
* `doNullFkn` returns `details::nullReturnFunction<R>()`;
* `doFreeCB<fkn>` calls `fkn(args...)`;
* `doMemberCB<T,memFkn>` calls `memFkn` on `static_cast<T*>(v_ptr)`;
* `doConstMemberCB<T,memFkn>` likewise through `T const*`;
* `doFunctor<F>` / `doConstFunctor<F>` call `operator()` on the functor
  at `v_ptr`;
* `doRuntimeFkn` calls the function pointer read back from `fkn_ptr`;
* `dofreeFknWithObjectRef<T,fkn>` / `dofreeFknWithObjectConstRef<T,fkn>`
  call `fkn(*static_cast<T*>(v_ptr), args...)`. -/
def delegate.call {Obj R A : Type} [Inhabited R]
    (env : Env Obj R A) (d : delegate) (a : A) : R :=
  match d.m_cb with
  | TrampolineId.nullFkn => nullReturnFunction R
  | TrampolineId.freeCB f => env.freeFkn f a
  | TrampolineId.memberCB t m => env.member t m (env.objAt d.m_ptr.v_ptr) a
  | TrampolineId.constMemberCB t m => env.constMember t m (env.objAt d.m_ptr.v_ptr) a
  | TrampolineId.functorCB t => env.functorAt t (env.objAt d.m_ptr.v_ptr) a
  | TrampolineId.constFunctorCB t => env.constFunctorAt t (env.objAt d.m_ptr.v_ptr) a
  | TrampolineId.runtimeFkn => env.fknAt d.m_ptr.fkn_ptr a
  | TrampolineId.freeFknWithObjectRef t f => env.ctxFkn t f (env.objAt d.m_ptr.v_ptr) a
  | TrampolineId.freeFknWithObjectConstRef t f => env.ctxConstFkn t f (env.objAt d.m_ptr.v_ptr) a

/-- A concrete interpretation environment over `Nat`, used to instantiate
the generic theorems at a specific program. -/
def envEx : Env Nat Nat Nat :=
  { objAt := fun p => p + 100,
    freeFkn := fun f a => 1000 * f + a,
    fknAt := fun f a => 2000 * f + a + 1,
    member := fun t m o a => 3000 * t + 300 * m + 10 * o + a,
    constMember := fun t m o a => 4000 * t + 400 * m + 10 * o + a,
    functorAt := fun t o a => 5000 * t + 10 * o + a,
    constFunctorAt := fun t o a => 6000 * t + 10 * o + a,
    ctxFkn := fun t f o a => 7000 * t + 700 * f + 10 * o + a,
    ctxConstFkn := fun t f o a => 8000 * t + 800 * f + 10 * o + a }

example : delegate.defaultCtor.null = true := by decide
example : (delegate.make_fkn 5).null = false := by decide
example : delegate.call envEx (delegate.make_free 3) 7 = 3007 := by decide
example : delegate.call envEx delegate.defaultCtor 7 = 0 := by decide
example : delegate.call envEx (delegate.make_ctxRef 1 2 4) 9 = 7000 + 1400 + 1040 + 9 := by decide

/-- `delegate.equal` is reflexive (the payload branch compares the stored
word against itself in either interpretation). -/
theorem delegate.equal_refl (d : delegate) : delegate.equal d d = true := by
  by_cases h : d.m_cb = TrampolineId.runtimeFkn <;> simp [delegate.equal, h]

/-- C2: `equal(lhs, rhs)` is true iff the two delegates store the same
trampoline pointer and, the trampoline being `doRuntimeFkn`, equal
function-pointer payloads, otherwise equal opaque object pointers; and
two delegates bound to the same member function of the same type on two
distinct live objects (distinct addresses) are not equal. -/
theorem C2_equal_iff_same_adapter_and_payload :
    (∀ lhs rhs : delegate, delegate.equal lhs rhs = true ↔
      (lhs.m_cb = rhs.m_cb ∧
        (if lhs.m_cb = TrampolineId.runtimeFkn
          then lhs.m_ptr.fkn_ptr = rhs.m_ptr.fkn_ptr
          else lhs.m_ptr.v_ptr = rhs.m_ptr.v_ptr))) ∧
    (∀ t m p q : Nat, p ≠ q →
      delegate.equal (delegate.make_member t m p) (delegate.make_member t m q) = false) := by
  constructor
  · intro lhs rhs
    by_cases h : lhs.m_cb = TrampolineId.runtimeFkn <;> simp [delegate.equal, h]
  · intro t m p q hpq
    simp [delegate.equal, delegate.make_member, DataPtr.v_ptr, DataPtr.fkn_ptr]
    exact hpq

/-- Witness for C2 at `t = 0`, `m = 0`, object addresses `1 ≠ 2`. -/
theorem C2_witness :
    delegate.equal (delegate.make_member 0 0 1) (delegate.make_member 0 0 2) = false :=
  C2_equal_iff_same_adapter_and_payload.2 0 0 1 2 (by decide)

/-- C3: invoking any delegate whose dispatcher is the null adapter
returns the default-constructed value of the return type (for `R = Unit`,
the void case, this is the no-op result `()`), for every environment and
argument tuple; a default-constructed delegate is null and compares
equal to `nullptr`. -/
theorem C3_null_adapter_call_returns_default :
    (∀ (Obj R A : Type) [Inhabited R] (env : Env Obj R A) (d : delegate) (a : A),
        d.null = true → delegate.call env d a = (default : R)) ∧
    delegate.defaultCtor.null = true ∧
    delegate.op_eq_nullptr delegate.defaultCtor = true := by
  refine ⟨?_, by decide, by decide⟩
  intro Obj R A instR env d a h
  cases d with
  | mk cb ptr =>
    have hcb : cb = TrampolineId.nullFkn := by simpa [delegate.null] using h
    subst hcb
    rfl

/-- Witness for C3: the default-constructed delegate, called in the
concrete environment `envEx` with argument `7`, returns `default = 0`. -/
theorem C3_witness : delegate.call envEx delegate.defaultCtor 7 = 0 :=
  C3_null_adapter_call_returns_default.1 Nat Nat Nat envEx delegate.defaultCtor 7 (by decide)

/-- C4: the two binding paths — `memFkn` factory then combination with an
object (by `make` or by `set`), versus binding the member function and
object directly — produce structurally identical delegates (same adapter,
same data pointer), for the non-const and the const member case alike;
hence every invocation of the two results coincides. -/
theorem C4_memFkn_path_equals_direct_path :
    ∀ t m p : Nat,
      (delegate.make_memFkn (delegate.memFknNonconst t m) p
        = delegate.make_member t m p) ∧
      (delegate.make_memFknConst (delegate.memFknConst t m) p
        = delegate.make_constMember t m p) ∧
      (∀ d : delegate, delegate.set_memFkn (delegate.memFknNonconst t m) p d
        = delegate.set_member t m p d) ∧
      (∀ d : delegate, delegate.set_memFknConst (delegate.memFknConst t m) p d
        = delegate.set_constMember t m p d) ∧
      (∀ (Obj R A : Type) [Inhabited R] (env : Env Obj R A) (a : A),
        delegate.call env (delegate.make_memFkn (delegate.memFknNonconst t m) p) a
          = delegate.call env (delegate.make_member t m p) a) ∧
      (∀ (Obj R A : Type) [Inhabited R] (env : Env Obj R A) (a : A),
        delegate.call env (delegate.make_memFknConst (delegate.memFknConst t m) p) a
          = delegate.call env (delegate.make_constMember t m p) a) :=
  fun _ _ _ =>
    ⟨rfl, rfl, fun _ => rfl, fun _ => rfl,
      fun _ _ _ _ _ _ => rfl, fun _ _ _ _ _ _ => rfl⟩

/-- C5: binding a delegate to a non-null compile-time free function `f`
(by `make<fkn>()` or `set<fkn>()`) and invoking it with arguments `a`
returns exactly `f(a)`. -/
theorem C5_free_function_invoke :
    ∀ (Obj R A : Type) [Inhabited R] (env : Env Obj R A) (f : Nat) (a : A),
      f ≠ 0 →
      delegate.call env (delegate.make_free f) a = env.freeFkn f a ∧
      ∀ d : delegate, delegate.call env (delegate.set_free f d) a = env.freeFkn f a := by
  intro Obj R A instR env f a hf
  constructor
  · simp [delegate.make_free, hf, delegate.call]
  · intro d
    simp [delegate.set_free, hf, delegate.call]

/-- Witness for C5 at `f = 3` (non-null), argument `7`, in `envEx`:
`envEx.freeFkn 3 7 = 3007`. -/
theorem C5_witness : delegate.call envEx (delegate.make_free 3) 7 = 3007 :=
  (C5_free_function_invoke Nat Nat Nat envEx 3 7 (by decide)).1

/-- C6: binding a delegate to a free function `g` taking the context
object (at address `p`) as extra first argument — non-const-reference or
const-reference variant — and invoking it with `a` returns exactly
`g(o, a)` where `o` is the object at `p`. -/
theorem C6_context_function_invoke :
    ∀ (Obj R A : Type) [Inhabited R] (env : Env Obj R A) (t g p : Nat) (a : A),
      delegate.call env (delegate.make_ctxRef t g p) a
        = env.ctxFkn t g (env.objAt p) a ∧
      delegate.call env (delegate.make_ctxConstRef t g p) a
        = env.ctxConstFkn t g (env.objAt p) a :=
  fun _ _ _ _ _ _ _ _ _ => ⟨rfl, rfl⟩

/-- C7: two delegates bound via the runtime-function-pointer path to the
same pointer value are equal (also across `set` and `make`, whatever the
previous state of the `set` target); and a delegate bound to `f` via the
runtime path is never equal to one bound to the same `f` via the
compile-time free-function path, their adapters differing. -/
theorem C7_runtime_pointer_equality :
    (∀ p : Nat, delegate.equal (delegate.make_fkn p) (delegate.make_fkn p) = true) ∧
    (∀ p : Nat, ∀ d : delegate,
      delegate.equal (delegate.set_fkn p d) (delegate.make_fkn p) = true) ∧
    (∀ f : Nat, delegate.equal (delegate.make_fkn f) (delegate.make_free f) = false) := by
  refine ⟨fun p => ?_, fun p d => ?_, fun f => ?_⟩
  · simp [delegate.equal, delegate.make_fkn]
  · simp [delegate.equal, delegate.make_fkn, delegate.set_fkn]
  · by_cases hf : f = 0 <;>
      simp [delegate.equal, delegate.make_fkn, delegate.make_free, hf]

/-- C8: binding a compile-time free function whose pointer value is null
selects the null adapter: both `set<fkn>()` and `make<fkn>()` yield
exactly the default-constructed delegate, which is null and whose every
invocation agrees with the default-constructed delegate's. -/
theorem C8_null_compile_time_function_selects_null_adapter :
    delegate.make_free 0 = delegate.defaultCtor ∧
    (∀ d : delegate, delegate.set_free 0 d = delegate.defaultCtor) ∧
    (delegate.make_free 0).null = true ∧
    (∀ (Obj R A : Type) [Inhabited R] (env : Env Obj R A) (a : A),
      delegate.call env (delegate.make_free 0) a
        = delegate.call env delegate.defaultCtor a) :=
  ⟨rfl, fun _ => rfl, by decide, fun _ _ _ _ _ _ => rfl⟩

/-- C10: binding through the runtime free-function-pointer path with a
null function pointer (`0`) yields a delegate that is NOT null (its null
test is false, its boolean conversion true, from `set` and `make` alike),
and whose invocation unconditionally calls whatever the stored pointer
value designates — `doRuntimeFkn` has no guard; only the compile-time
path (`make<fkn>()` with `fkn == nullptr`) maps a null function to the
null adapter. -/
theorem C10_runtime_null_pointer_not_null_delegate :
    (delegate.make_fkn 0).null = false ∧
    (delegate.make_fkn 0).toBool = true ∧
    (∀ d : delegate,
      (delegate.set_fkn 0 d).null = false ∧ (delegate.set_fkn 0 d).toBool = true) ∧
    (∀ (Obj R A : Type) [Inhabited R] (env : Env Obj R A) (a : A),
      delegate.call env (delegate.make_fkn 0) a = env.fknAt 0 a) ∧
    (delegate.make_free 0).null = true :=
  ⟨by decide, by decide, fun _ => ⟨rfl, rfl⟩,
    fun _ _ _ _ _ _ => rfl, by decide⟩

/-- A store of delegate-typed C++ variables: each variable is one slot
holding its own two words (`delegate` has no indirection into shared
state — its members are a function pointer and a one-word union, copied
memberwise). -/
def Store : Type := Nat → delegate

/-- Assignment to one variable (`operator=` / any mutator writing both
words of slot `i`). -/
def Store.assign (sto : Store) (i : Nat) (v : delegate) : Store :=
  fun j => if j = i then v else sto j

/-- Copy construction/assignment of variable `src` into variable `dst`
(memberwise copy of the two words). -/
def Store.copyVar (sto : Store) (dst src : Nat) : Store :=
  sto.assign dst (sto src)

/-- C9: value semantics.  Take a copy of the delegate in slot `i` into a
distinct slot `j`, then rebind slot `i` through any mutator (every
mutator — `clear`, `set<fkn>`, `set(T&)`, `set(TargetFreeCB)`, … —
overwrites both words of its target with some new value `v`): slot `j`
still holds exactly the original binding, compares `equal` to it, and
every invocation of it dispatches as the original did. -/
theorem C9_copy_unaffected_by_rebinding :
    ∀ (sto : Store) (i j : Nat) (v : delegate), i ≠ j →
      ((sto.copyVar j i).assign i v) j = sto i ∧
      delegate.equal (((sto.copyVar j i).assign i v) j) (sto i) = true ∧
      ∀ (Obj R A : Type) [Inhabited R] (env : Env Obj R A) (a : A),
        delegate.call env (((sto.copyVar j i).assign i v) j) a
          = delegate.call env (sto i) a := by
  intro sto i j v hij
  have hji : j ≠ i := Ne.symm hij
  have hslot : ((sto.copyVar j i).assign i v) j = sto i := by
    simp [Store.assign, Store.copyVar, hji]
  refine ⟨hslot, ?_, ?_⟩
  · rw [hslot]; exact delegate.equal_refl (sto i)
  · intro Obj R A instR env a
    rw [hslot]

/-- Concrete store for the C9 witness: every slot starts bound to the
runtime function pointer `5`. -/
def stoEx : Store := fun _ => delegate.make_fkn 5

/-- Witness for C9 at slots `0 ≠ 1`: after copying slot 0 to slot 1 and
rebinding slot 0 to the default (cleared) delegate, slot 1 still
compares equal to the original binding. -/
theorem C9_witness :
    delegate.equal (((stoEx.copyVar 1 0).assign 0 delegate.defaultCtor) 1)
      (stoEx 0) = true :=
  (C9_copy_unaffected_by_rebinding stoEx 0 1 delegate.defaultCtor (by decide)).2.1

/-- One legal trampoline placement (program run): injective, but with the
`doRuntimeFkn` trampoline placed at a lower address than `doNullFkn`.
Nothing in C++ or in the source pins where the linker puts `doNullFkn`,
so this is a possible run. -/
def addrEx : TrampolineId → Nat
  | TrampolineId.nullFkn => 1
  | TrampolineId.runtimeFkn => 0
  | TrampolineId.freeCB f => 9 * f + 2
  | TrampolineId.memberCB t m => 9 * Nat.pair t m + 3
  | TrampolineId.constMemberCB t m => 9 * Nat.pair t m + 4
  | TrampolineId.functorCB t => 9 * t + 5
  | TrampolineId.constFunctorCB t => 9 * t + 6
  | TrampolineId.freeFknWithObjectRef t f => 9 * Nat.pair t f + 7
  | TrampolineId.freeFknWithObjectConstRef t f => 9 * Nat.pair t f + 8

/-- `addrEx` is a genuine placement: distinct trampolines get distinct
addresses. -/
theorem addrEx_injective : Function.Injective addrEx := by
  intro a b h
  cases a <;> cases b <;> simp only [addrEx] at h <;>
    first
      | rfl
      | (exfalso; omega)
      | (congr 1; omega)
      | (rename_i x y u w
         obtain ⟨h1, h2⟩ := Nat.pair_eq_pair.mp (show Nat.pair x y = Nat.pair u w by omega)
         subst h1; subst h2; rfl)

/-- C1 (failing-input evaluation): in the run `addrEx`, with `n` the
default-constructed (null) delegate and `d` a non-null delegate bound to
runtime function pointer `5`, BOTH `less(n, d)` and `less(d, n)` are
true: the null-first disjunct makes `less(n, d)` true while the raw
trampoline-pointer comparison `lhs.m_cb < rhs.m_cb`, not guarded by the
null rule, makes `less(d, n)` true as well.  So `less` is neither
antisymmetric nor transitive in this run (transitivity would force
`less(n, n)`, which is false), contradicting the claimed strict total
order; `less(r, r)` is itself indeed false. -/
theorem C1_less_not_antisymmetric_in_some_run :
    delegate.less addrEx delegate.defaultCtor (delegate.make_fkn 5) = true ∧
    delegate.less addrEx (delegate.make_fkn 5) delegate.defaultCtor = true ∧
    delegate.defaultCtor.null = true ∧
    (delegate.make_fkn 5).null = false ∧
    delegate.less addrEx delegate.defaultCtor delegate.defaultCtor = false ∧
    delegate.less addrEx (delegate.make_fkn 5) (delegate.make_fkn 5) = false := by
  decide

/-- In every run, `less(r, r)` is false (this part of the claimed strict
order does hold unconditionally). -/
theorem delegate.less_irrefl (addr : TrampolineId → Nat) (r : delegate) :
    delegate.less addr r r = false := by
  by_cases h : r.m_cb = TrampolineId.runtimeFkn <;> simp [delegate.less, h]

/-- In a run that places `doNullFkn` at the lowest trampoline address,
`less` collapses to the lexicographic comparison of
`(addr m_cb, payload word)`: the null-first disjunct is subsumed. -/
theorem delegate.less_iff_of_placement (addr : TrampolineId → Nat)
    (hmin : ∀ c : TrampolineId, c ≠ TrampolineId.nullFkn →
      addr TrampolineId.nullFkn < addr c)
    (a b : delegate) :
    delegate.less addr a b = true ↔
      addr a.m_cb < addr b.m_cb ∨
        (a.m_cb = b.m_cb ∧ a.m_ptr.word < b.m_ptr.word) := by
  simp only [delegate.less, delegate.null, DataPtr.fkn_ptr, DataPtr.v_ptr, ite_self,
    Bool.or_eq_true, Bool.and_eq_true, Bool.not_eq_true', decide_eq_true_eq,
    decide_eq_false_iff_not, or_assoc]
  constructor
  · rintro (⟨ha, hb⟩ | h | h)
    · exact Or.inl (ha ▸ hmin b.m_cb hb)
    · exact Or.inl h
    · exact Or.inr h
  · rintro (h | h)
    · exact Or.inr (Or.inl h)
    · exact Or.inr (Or.inr h)

/-- With the null adapter placed lowest, `less` is asymmetric — the
failure exhibited for C1 is exactly the placement-dependence. -/
theorem delegate.less_asymm_of_placement (addr : TrampolineId → Nat)
    (hmin : ∀ c : TrampolineId, c ≠ TrampolineId.nullFkn →
      addr TrampolineId.nullFkn < addr c)
    (a b : delegate) (h : delegate.less addr a b = true) :
    delegate.less addr b a = false := by
  rw [delegate.less_iff_of_placement addr hmin] at h
  rw [Bool.eq_false_iff]
  rw [Ne, delegate.less_iff_of_placement addr hmin]
  rcases h with h | ⟨heq, hw⟩
  · rintro (h2 | ⟨heq2, _⟩)
    · omega
    · rw [heq2] at h; omega
  · rintro (h2 | ⟨_, hw2⟩)
    · rw [heq] at h2; omega
    · omega

/-- With the null adapter placed lowest, `less` is transitive. -/
theorem delegate.less_trans_of_placement (addr : TrampolineId → Nat)
    (hmin : ∀ c : TrampolineId, c ≠ TrampolineId.nullFkn →
      addr TrampolineId.nullFkn < addr c)
    (a b c : delegate) (hab : delegate.less addr a b = true)
    (hbc : delegate.less addr b c = true) :
    delegate.less addr a c = true := by
  rw [delegate.less_iff_of_placement addr hmin] at hab hbc ⊢
  rcases hab with h1 | ⟨he1, hw1⟩ <;> rcases hbc with h2 | ⟨he2, hw2⟩
  · exact Or.inl (lt_trans h1 h2)
  · rw [he2] at h1; exact Or.inl h1
  · rw [he1]; exact Or.inl h2
  · exact Or.inr ⟨he1.trans he2, lt_trans hw1 hw2⟩

/-- Two `DataPtr` words agreeing means the unions are equal. -/
theorem DataPtr.eq_of_word {p q : DataPtr} (h : p.word = q.word) : p = q := by
  cases p; cases q; simpa using h

/-- Two delegates agreeing on trampoline and payload word are equal. -/
theorem delegate.eq_of_parts {a b : delegate} (h1 : a.m_cb = b.m_cb)
    (h2 : a.m_ptr.word = b.m_ptr.word) : a = b := by
  cases a; cases b
  simp only [delegate.mk.injEq]
  exact ⟨h1, DataPtr.eq_of_word h2⟩

/-- With the null adapter placed lowest and an injective placement,
`less` is total on distinct delegates. -/
theorem delegate.less_total_of_placement (addr : TrampolineId → Nat)
    (hinj : Function.Injective addr)
    (hmin : ∀ c : TrampolineId, c ≠ TrampolineId.nullFkn →
      addr TrampolineId.nullFkn < addr c)
    (a b : delegate) (hne : a ≠ b) :
    delegate.less addr a b = true ∨ delegate.less addr b a = true := by
  rw [delegate.less_iff_of_placement addr hmin,
    delegate.less_iff_of_placement addr hmin]
  by_cases hcb : a.m_cb = b.m_cb
  · have hw : a.m_ptr.word ≠ b.m_ptr.word := fun hw =>
      hne (delegate.eq_of_parts hcb hw)
    rcases Nat.lt_or_ge a.m_ptr.word b.m_ptr.word with h | h
    · exact Or.inl (Or.inr ⟨hcb, h⟩)
    · exact Or.inr (Or.inr ⟨hcb.symm, lt_of_le_of_ne h (Ne.symm hw)⟩)
  · have : addr a.m_cb ≠ addr b.m_cb := fun h => hcb (hinj h)
    rcases Nat.lt_or_ge (addr a.m_cb) (addr b.m_cb) with h | h
    · exact Or.inl (Or.inl h)
    · exact Or.inr (Or.inl (lt_of_le_of_ne h (Ne.symm this)))
